import Mathlib

/-!
Shallow embedding of the session-managed HTTP transport layer of the
json-mcp-server repository (index.js, HTTP transport branch).  Pure
source functions are translated directly; the Express routing, the
session registry (a plain JavaScript object keyed by session id), the
authentication middleware, the tool-call dispatcher and the SIGINT
shutdown handler are modelled as executable Lean functions over explicit
state.  External collaborators (filesystem, the jq binary, genson, Ajv,
and the MCP SDK transport internals) are modelled as parameters that
record only their success/error outcome, mirroring the narrow interface
the source uses.
-/

namespace JsonMcpServer

/-- JavaScript truthiness of an optional string value: undefined and the
empty string are falsy, every other string is truthy.  Used wherever the
source tests a string with a bare if, a logical and, or a logical or. -/
def jsTruthy : Option String → Bool
  | none => false
  | some s => if s = "" then false else true

/-- JavaScript or-default on optional strings, as in the source
expression args.filePath or DEFAULT_FILE_PATH. -/
def jsOr (a b : Option String) : Option String :=
  if jsTruthy a then a else b

/-- JavaScript or-default with a string fallback, as in the source
expression MCP_VERSION or the literal default version. -/
def jsOrStr (a : Option String) (b : String) : String :=
  if jsTruthy a then a.getD "" else b

/-- Character-list core of the JS String.startsWith used by the
authentication middleware. -/
def charsStartWith : List Char → List Char → Bool
  | _, [] => true
  | [], _ :: _ => false
  | c :: cs, d :: ds => c == d && charsStartWith cs ds

/-- Models the JS method call authHeader.startsWith on strings. -/
def strStartsWith (s pat : String) : Bool :=
  charsStartWith s.data pat.data

/-- Models the JS method call authHeader.slice with a nonnegative
index: drop the first n characters. -/
def strDrop (s : String) (n : Nat) : String :=
  String.mk (s.data.drop n)

/-- One StreamableHTTPServerTransport object as far as the transport
layer observes it: tid is the identity of the constructed object (fresh
per construction), sessionId is the transport.sessionId field assigned
by the SDK when the initialization handshake completes, and engineId is
the identity of the Server instance this transport was connected to by
mcpServer.connect. -/
structure Transport where
  tid : Nat
  sessionId : Option String
  engineId : Nat
  deriving DecidableEq

/-- Identity of the single module-level Server instance created once by
the source expression new Server applied to the server metadata; every
call of mcpServer.connect in the POST handler passes this one object. -/
def serverEngineId : Nat := 0

/-- The session registry: the plain JS object held in the local const
transports, mapping session id to transport. -/
abbrev Registry := List (String × Transport)

/-- Property read transports bracket id on a JS object, restricted to
own keys.  The registry is a plain object literal, whose bracket read
also hits the truthy properties a plain object inherits from
Object.prototype (protoTruthy below); every id the program ever stores
is a server-generated UUID, never such a name, so the own-key read
agrees with the source read at every stored key and at every
UUID-shaped id.  Where the distinction is observable — an inbound
request naming an inherited property — postHandlerJS below models the
full prototype-chain read. -/
def objGet : Registry → String → Option Transport
  | [], _ => none
  | p :: m, id => if p.1 = id then some p.2 else objGet m id

/-- Property names that a plain JS object literal inherits from
Object.prototype, all of whose values (methods, and the __proto__
accessor's result) are truthy objects. -/
def objectPrototypeKeys : List String :=
  ["constructor", "hasOwnProperty", "isPrototypeOf", "propertyIsEnumerable",
   "toLocaleString", "toString", "valueOf", "__defineGetter__", "__defineSetter__",
   "__lookupGetter__", "__lookupSetter__", "__proto__"]

/-- Whether the bracket read of id on a plain object with no own
property id still yields a truthy value, by hitting the prototype
chain. -/
def protoTruthy (id : String) : Bool :=
  objectPrototypeKeys.contains id

/-- The JS delete operator on the transports object. -/
def objDelete : Registry → String → Registry
  | [], _ => []
  | p :: m, id => if p.1 = id then objDelete m id else p :: objDelete m id

/-- Property assignment transports bracket id equals transport: the JS
object ends up with exactly this binding for id and all other keys
unchanged (see objGet_objSet below for the characterization). -/
def objSet (m : Registry) (id : String) (t : Transport) : Registry :=
  (id, t) :: objDelete m id

/-- HTTP methods routed by the Express app. -/
inductive HttpMethod where
  | get
  | post
  | delete
  deriving DecidableEq

/-- One inbound HTTP request as the transport layer reads it: the
method and path route it, the authorization header and token query
parameter feed the authentication middleware, the mcp-session-id header
feeds session resolution, and bodyIsInit records the outcome of the SDK
predicate isInitializeRequest applied to the request body (the SDK
predicate itself is an external collaborator; only its boolean outcome
is consumed by the source). -/
structure InboundRequest where
  method : HttpMethod
  path : String
  authorizationHeader : Option String
  tokenQueryParam : Option String
  mcpSessionIdHeader : Option String
  bodyIsInit : Bool
  deriving DecidableEq

/-- Body of the 200 response of the health endpoint. -/
structure HealthBody where
  status : String
  service : String
  version : String
  transportKind : String
  deriving DecidableEq

/-- The JSON body written by the health endpoint: status healthy,
service json-mcp-server, version MCP_VERSION or the default, transport
http. -/
def healthBody (mcpVersion : Option String) : HealthBody :=
  { status := "healthy"
    service := "json-mcp-server"
    version := jsOrStr mcpVersion "1.1.0"
    transportKind := "http" }

/-- Responses the transport layer can produce.  handled means the
request was handed to a transport via transport.handleRequest (its body
is produced by the external SDK engine and is not modelled); the other
constructors are the responses written directly by the source;
serverError500 is the 500 internal-server-error JSON written by the
outer catch of the POST handler when the awaited dispatch throws. -/
inductive Response where
  | handled
  | healthy (body : HealthBody)
  | badRequest400 (msg : String)
  | unauthorized401
  | notFound404
  | serverError500
  deriving DecidableEq

/-- Whether a response is one of the 400 Bad Request responses. -/
def Response.isBadRequest : Response → Bool
  | Response.badRequest400 _ => true
  | _ => false

/-- Outcome of the authentication middleware: call next, or send the
401 JSON-RPC error and stop. -/
inductive AuthDecision where
  | pass
  | reject401
  deriving DecidableEq

/-- The credential extraction of the authenticate middleware: if the
authorization header is truthy and starts with the Bearer prefix, the
rest of the header; otherwise, if the token query parameter is truthy,
that parameter; otherwise null. -/
def providedToken (r : InboundRequest) : Option String :=
  if jsTruthy r.authorizationHeader && strStartsWith (r.authorizationHeader.getD "") "Bearer " then
    some (strDrop (r.authorizationHeader.getD "") 7)
  else if jsTruthy r.tokenQueryParam then
    r.tokenQueryParam
  else
    none

/-- The authenticate middleware: when AUTH_TOKEN is not set (or is the
empty string, which is JS-falsy) every request passes; otherwise the
extracted credential is compared with strict inequality against
AUTH_TOKEN and a mismatch is rejected with the 401 response. -/
def authenticate (authToken : Option String) (r : InboundRequest) : AuthDecision :=
  if ¬ jsTruthy authToken then
    AuthDecision.pass
  else if providedToken r ≠ authToken then
    AuthDecision.reject401
  else
    AuthDecision.pass

/-- Mutable state of the transport layer: the transports registry
object together with the supply of fresh transport object identities. -/
structure ServerState where
  transports : Registry
  nextTid : Nat
  deriving DecidableEq

/-- The server configuration read from the environment: AUTH_TOKEN and
MCP_VERSION (none models an unset variable). -/
structure Config where
  authToken : Option String
  mcpVersion : Option String
  deriving DecidableEq

/-- Express middleware chaining as used by the three registrations on
the /mcp path: run authenticate; on rejection write the 401 response
without invoking the route handler; on pass invoke the handler. -/
def withAuth (tok : Option String)
    (handler : ServerState → InboundRequest → Response × ServerState)
    (st : ServerState) (r : InboundRequest) : Response × ServerState :=
  match authenticate tok r with
  | AuthDecision.reject401 => (Response.unauthorized401, st)
  | AuthDecision.pass => handler st r

/-- Message of the 400 response of the POST handler. -/
def postBadSessionMsg : String := "Bad Request: No valid session ID provided"

/-- Message of the 400 response of handleSessionRequest. -/
def sessBadSessionMsg : String := "Invalid or missing session ID"

/-- The deregistration hook installed as transport.onclose: if the
closing transport has a (truthy) sessionId, delete that key from the
transports object; otherwise do nothing. -/
def oncloseEffect (m : Registry) (t : Transport) : Registry :=
  if jsTruthy t.sessionId then objDelete m (t.sessionId.getD "") else m

/-- The POST /mcp route handler (after the authenticate middleware).
The parameter u is the value the sessionIdGenerator callback (a fresh
randomUUID) returns for this request, and okk records whether the SDK
initialization handshake inside transport.handleRequest succeeds.  On
the new-initialization branch the source constructs a fresh transport
(modelled by consuming nextTid), connects it to the single module-level
server (engineId serverEngineId), and, when the SDK completes the
handshake, the SDK assigns transport.sessionId the generated id and
invokes the onsessioninitialized callback, whose body stores the
transport in the registry under that id. -/
def postHandler (st : ServerState) (r : InboundRequest) (u : String) (okk : Bool) :
    Response × ServerState :=
  if jsTruthy r.mcpSessionIdHeader
      && (objGet st.transports (r.mcpSessionIdHeader.getD "")).isSome then
    (Response.handled, st)
  else if !(jsTruthy r.mcpSessionIdHeader) && r.bodyIsInit then
    if okk then
      (Response.handled,
        { transports :=
            objSet st.transports u
              { tid := st.nextTid, sessionId := some u, engineId := serverEngineId },
          nextTid := st.nextTid + 1 })
    else
      (Response.handled, { st with nextTid := st.nextTid + 1 })
  else
    (Response.badRequest400 postBadSessionMsg, st)

/-- The POST /mcp route handler with the registry read modelled at full
JavaScript fidelity: the transports registry is a plain object literal,
so the guard read transports[sessionId] also hits the truthy properties
the object inherits from Object.prototype.  On an id naming such an
inherited property the reuse branch is taken with a non-transport
value, the awaited transport.handleRequest call throws, and the outer
catch of the handler answers the 500 response (no headers were sent
yet); the registry is untouched.  On every id that is not an
inherited-property name this handler agrees with postHandler
(postHandlerJS_agrees below), which the other route-level developments
use. -/
def postHandlerJS (st : ServerState) (r : InboundRequest) (u : String) (okk : Bool) :
    Response × ServerState :=
  if jsTruthy r.mcpSessionIdHeader
      && ((objGet st.transports (r.mcpSessionIdHeader.getD "")).isSome
          || protoTruthy (r.mcpSessionIdHeader.getD "")) then
    if (objGet st.transports (r.mcpSessionIdHeader.getD "")).isSome then
      (Response.handled, st)
    else
      (Response.serverError500, st)
  else if !(jsTruthy r.mcpSessionIdHeader) && r.bodyIsInit then
    if okk then
      (Response.handled,
        { transports :=
            objSet st.transports u
              { tid := st.nextTid, sessionId := some u, engineId := serverEngineId },
          nextTid := st.nextTid + 1 })
    else
      (Response.handled, { st with nextTid := st.nextTid + 1 })
  else
    (Response.badRequest400 postBadSessionMsg, st)

/-- On every request whose session id header is not an inherited
Object.prototype property name (in particular every UUID id), the
full-fidelity handler and postHandler coincide. -/
theorem postHandlerJS_agrees (st : ServerState) (r : InboundRequest) (u : String) (okk : Bool)
    (h : protoTruthy (r.mcpSessionIdHeader.getD "") = false) :
    postHandlerJS st r u okk = postHandler st r u okk := by
  unfold postHandlerJS postHandler
  rw [h]
  by_cases hg : (jsTruthy r.mcpSessionIdHeader
      && (objGet st.transports (r.mcpSessionIdHeader.getD "")).isSome) = true
  · have hg2 : (jsTruthy r.mcpSessionIdHeader
        && ((objGet st.transports (r.mcpSessionIdHeader.getD "")).isSome || false)) = true := by
      rw [Bool.or_false]
      exact hg
    have hsome : (objGet st.transports (r.mcpSessionIdHeader.getD "")).isSome = true := by
      have hparts : jsTruthy r.mcpSessionIdHeader = true ∧
          (objGet st.transports (r.mcpSessionIdHeader.getD "")).isSome = true := by
        simpa using hg
      exact hparts.2
    rw [if_pos hg2, if_pos hg, if_pos hsome]
  · have hg2 : ¬ (jsTruthy r.mcpSessionIdHeader
        && ((objGet st.transports (r.mcpSessionIdHeader.getD "")).isSome || false)) = true := by
      rw [Bool.or_false]
      exact hg
    rw [if_neg hg2, if_neg hg]

/-- The shared handleSessionRequest used by the GET and DELETE routes
on /mcp: reject 400 when the session id header is missing or unknown;
otherwise hand the request to the stored transport.  For DELETE the SDK
transport terminates the session, closing the transport and firing its
onclose hook (closes is true); for GET it serves the SSE stream without
closing (closes is false). -/
def sessionHandler (closes : Bool) (st : ServerState) (r : InboundRequest) :
    Response × ServerState :=
  if ¬ jsTruthy r.mcpSessionIdHeader then
    (Response.badRequest400 sessBadSessionMsg, st)
  else
    match objGet st.transports (r.mcpSessionIdHeader.getD "") with
    | none => (Response.badRequest400 sessBadSessionMsg, st)
    | some t =>
      if closes then
        (Response.handled, { st with transports := oncloseEffect st.transports t })
      else
        (Response.handled, st)

/-- The Express application routing of startHttpServer: GET /health is
registered without the authenticate middleware and touches no session
state; the three /mcp routes run authenticate first and then their
handlers; any other path falls through. -/
def app (cfg : Config) (st : ServerState) (r : InboundRequest) (u : String) (okk : Bool) :
    Response × ServerState :=
  if r.path = "/health" ∧ r.method = HttpMethod.get then
    (Response.healthy (healthBody cfg.mcpVersion), st)
  else if r.path = "/mcp" then
    match r.method with
    | HttpMethod.post => withAuth cfg.authToken (fun s q => postHandler s q u okk) st r
    | HttpMethod.get => withAuth cfg.authToken (sessionHandler false) st r
    | HttpMethod.delete => withAuth cfg.authToken (sessionHandler true) st r
  else
    (Response.notFound404, st)

/-- One externally observable event of the running server: an inbound
HTTP request (with the uuid the generator would produce and the
handshake outcome), or a transport-level disconnect of a registered
session, which fires the onclose hook of the stored transport. -/
inductive Event where
  | http (r : InboundRequest) (u : String) (okk : Bool)
  | disconnect (id : String)
  deriving DecidableEq

/-- One step of the transport layer. -/
def step (cfg : Config) (st : ServerState) : Event → Response × ServerState
  | Event.http r u okk => app cfg st r u okk
  | Event.disconnect id =>
    match objGet st.transports id with
    | some t => (Response.handled, { st with transports := oncloseEffect st.transports t })
    | none => (Response.handled, st)

/-- Run a sequence of events from a state. -/
def run (cfg : Config) (st : ServerState) : List Event → ServerState
  | [] => st
  | e :: es => run cfg (step cfg st e).2 es

/-- The state of the freshly started HTTP server: empty registry. -/
def initState : ServerState := { transports := [], nextTid := 0 }

/-! Tool-call dispatcher (the CallToolRequestSchema handler). -/

/-- Arguments of a tool call as the handler reads them.  The schema
argument of validate_json_schema is a JSON object in the source; it is
modelled opaquely by its serialized text (a JS object is always truthy,
so presence is isSome). -/
structure ToolArgs where
  filePath : Option String
  query : Option String
  schemaObj : Option String
  schemaFilePath : Option String
  deriving DecidableEq

/-- One item of the content array of a tool result; the source always
produces items with type text. -/
structure ContentItem where
  itemType : String
  text : String
  deriving DecidableEq

/-- Build the text content item the handler returns. -/
def textItem (s : String) : ContentItem :=
  { itemType := "text", text := s }

/-- A tool-call result object.  isError is absent on success results in
the source, which is modelled as false. -/
structure ToolResult where
  content : List ContentItem
  isError : Bool
  deriving DecidableEq

/-- Outcomes of the external collaborators invoked by the tools: the
filesystem checks of validateFilePath (absolute path, access, stat),
loadJsonFile (read plus JSON parse, result kept as opaque text), the
jq binary, genson createSchema, and Ajv compile. -/
structure ToolEnv where
  fsValidate : String → Except String String
  loadJson : String → Except String String
  jqRun : String → String → Except String String
  gensonCreateSchema : String → Except String String
  ajvCompile : String → Except String Unit

/-- The validateFilePath function of the source: a falsy path fails
with the fixed message, otherwise the filesystem checks decide. -/
def validateFilePath (env : ToolEnv) (filePath : Option String) : Except String String :=
  if ¬ jsTruthy filePath then
    Except.error "File path is required"
  else
    env.fsValidate (filePath.getD "")

/-- The query_json case of the tool dispatcher: validate the path (with
the DEFAULT_FILE_PATH fallback), require a truthy query, then load the
file and run jq inside an inner try whose catch rethrows with the jq
query failed prefix.  Result text abbreviates the JSON stringification
of the jq result, which the model keeps opaque. -/
def queryJsonTool (env : ToolEnv) (defFP : Option String) (args : ToolArgs) :
    Except String ToolResult := do
  let filePath ← validateFilePath env (jsOr args.filePath defFP)
  if ¬ jsTruthy args.query then
    Except.error "Query parameter is required"
  else
    match (do
        let jsonData ← env.loadJson filePath
        env.jqRun (args.query.getD "") jsonData : Except String String) with
    | Except.ok result =>
      Except.ok { content := [textItem ("Query result:\n" ++ result)], isError := false }
    | Except.error msg =>
      Except.error ("jq query failed: " ++ msg)

/-- The generate_json_schema case: validate the path, then load the
file and run genson inside an inner try whose catch rethrows with the
schema generation failed prefix. -/
def generateSchemaTool (env : ToolEnv) (defFP : Option String) (args : ToolArgs) :
    Except String ToolResult := do
  let filePath ← validateFilePath env (jsOr args.filePath defFP)
  match (do
      let jsonData ← env.loadJson filePath
      env.gensonCreateSchema jsonData : Except String String) with
  | Except.ok schema =>
    Except.ok { content := [textItem ("Generated JSON Schema:\n" ++ schema)], isError := false }
  | Except.error msg =>
    Except.error ("Schema generation failed: " ++ msg)

/-- The validate_json_schema case: take the provided schema object, or
load it from schemaFilePath, or fail; then compile with Ajv inside an
inner try whose catch returns a normal result describing the invalid
schema without setting isError.  The success and failure texts
abbreviate the schema summary lines of the source, which depend on the
parsed object that the model keeps opaque. -/
def validateSchemaTool (env : ToolEnv) (args : ToolArgs) : Except String ToolResult := do
  let schema ←
    if args.schemaObj.isSome then
      Except.ok (args.schemaObj.getD "")
    else if jsTruthy args.schemaFilePath then do
      let schemaPath ← validateFilePath env args.schemaFilePath
      env.loadJson schemaPath
    else
      Except.error "Either \"schema\" object or \"schemaFilePath\" must be provided"
  match env.ajvCompile schema with
  | Except.ok _ =>
    Except.ok
      { content := [textItem ("JSON Schema is valid!\n\nFull validated schema:\n" ++ schema)]
        isError := false }
  | Except.error msg =>
    Except.ok
      { content :=
          [textItem ("JSON Schema is invalid!\n\nError: " ++ msg ++ "\n\nProvided schema:\n" ++ schema)]
        isError := false }

/-- The switch of the CallToolRequestSchema handler, including the
default branch that throws on an unknown tool name.  An error value is
an exception propagating out of the switch into the outer catch. -/
def callToolInner (env : ToolEnv) (defFP : Option String) (name : String) (args : ToolArgs) :
    Except String ToolResult :=
  if name = "query_json" then
    queryJsonTool env defFP args
  else if name = "generate_json_schema" then
    generateSchemaTool env defFP args
  else if name = "validate_json_schema" then
    validateSchemaTool env args
  else
    Except.error ("Unknown tool: " ++ name)

/-- The whole CallToolRequestSchema handler: the outer catch turns any
exception thrown by the switch into a normal result carrying the error
message with isError set; nothing propagates further. -/
def callToolHandler (env : ToolEnv) (defFP : Option String) (name : String) (args : ToolArgs) :
    ToolResult :=
  match callToolInner env defFP name args with
  | Except.ok r => r
  | Except.error msg => { content := [textItem ("Error: " ++ msg)], isError := true }

/-! Shutdown (the SIGINT handler of startHttpServer). -/

/-- State visible to the SIGINT handler: the transports registry, the
accepting flag of the Node http server (false once httpServer.close has
run), and whether process.exit was reached. -/
structure ShutdownState where
  transports : Registry
  accepting : Bool
  exited : Bool
  deriving DecidableEq

/-- The closing sweep of the SIGINT handler: Object.values of the
transports object, then for each value call transport.close, which
fires the onclose hook of that transport (every stored value is a
transport, so the function-typed guard of the source always passes). -/
def closeAll (m : Registry) : Registry :=
  (m.map Prod.snd).foldl oncloseEffect m

/-- First statement block of the SIGINT handler: close all active
transports. -/
def sigintStep1 (s : ShutdownState) : ShutdownState :=
  { s with transports := closeAll s.transports }

/-- Second statement of the SIGINT handler: httpServer.close, which
stops the listener from accepting new connections. -/
def sigintStep2 (s : ShutdownState) : ShutdownState :=
  { s with accepting := false }

/-- The callback passed to httpServer.close: process.exit 0. -/
def sigintStep3 (s : ShutdownState) : ShutdownState :=
  { s with exited := true }

/-- The SIGINT handler in source order: sweep the sessions closed,
then stop the listener, then exit. -/
def sigintHandler (s : ShutdownState) : ShutdownState :=
  sigintStep3 (sigintStep2 (sigintStep1 s))

/-! Basic lemmas about the registry object operations. -/

/-- Reading after a delete: the deleted key is gone, other keys are
unchanged. -/
theorem objGet_objDelete (m : Registry) (id s : String) :
    objGet (objDelete m id) s = if s = id then none else objGet m s := by
  induction m with
  | nil => simp [objGet, objDelete]
  | cons p m ih =>
    by_cases hsid : s = id
    · subst hsid
      by_cases hpid : p.1 = s
      · simp [objDelete, hpid, ih]
      · simp [objDelete, objGet, hpid, ih]
    · by_cases hpid : p.1 = id
      · have hps : ¬ p.1 = s := by rw [hpid]; exact fun h => hsid h.symm
        have hids : ¬ id = s := fun h => hsid h.symm
        simp [objDelete, objGet, hpid, hps, ih, hsid, hids]
      · by_cases hps : p.1 = s
        · simp [objDelete, objGet, hpid, hps, hsid]
        · simp [objDelete, objGet, hpid, hps, ih, hsid]

/-- Reading after an assignment: the assigned key holds the new value,
other keys are unchanged. -/
theorem objGet_objSet (m : Registry) (id : String) (t : Transport) (s : String) :
    objGet (objSet m id t) s = if s = id then some t else objGet m s := by
  by_cases hsid : s = id
  · simp [objSet, objGet, hsid]
  · have : ¬ id = s := fun h => hsid h.symm
    simp [objSet, objGet, this, objGet_objDelete, hsid]

/-- Entries surviving a delete were already present. -/
theorem objDelete_subset {m : Registry} {id : String} {p : String × Transport}
    (h : p ∈ objDelete m id) : p ∈ m := by
  induction m with
  | nil => simp [objDelete] at h
  | cons q m ih =>
    by_cases hq : q.1 = id
    · simp only [objDelete, if_pos hq] at h
      exact List.mem_cons_of_mem q (ih h)
    · simp only [objDelete, if_neg hq, List.mem_cons] at h
      rcases h with h | h
      · exact h ▸ List.mem_cons_self q m
      · exact List.mem_cons_of_mem q (ih h)

/-- Entries after an assignment are the new binding or old entries. -/
theorem objSet_mem {m : Registry} {id : String} {t : Transport} {p : String × Transport}
    (h : p ∈ objSet m id t) : p = (id, t) ∨ p ∈ m := by
  simp only [objSet, List.mem_cons] at h
  rcases h with h | h
  · exact Or.inl h
  · exact Or.inr (objDelete_subset h)

/-- A successful registry read yields an entry of the object. -/
theorem objGet_mem {m : Registry} {id : String} {t : Transport}
    (h : objGet m id = some t) : (id, t) ∈ m := by
  induction m with
  | nil => simp [objGet] at h
  | cons p m ih =>
    by_cases hp : p.1 = id
    · simp only [objGet, if_pos hp, Option.some.injEq] at h
      cases p with
      | mk k v =>
        simp only at hp h
        subst hp; subst h
        exact List.mem_cons_self _ _
    · simp only [objGet, if_neg hp] at h
      exact List.mem_cons_of_mem p (ih h)

/-- Entries surviving the onclose hook were already present. -/
theorem oncloseEffect_subset {m : Registry} {t : Transport} {p : String × Transport}
    (h : p ∈ oncloseEffect m t) : p ∈ m := by
  unfold oncloseEffect at h
  by_cases ht : jsTruthy t.sessionId
  · rw [if_pos ht] at h
    exact objDelete_subset h
  · rwa [if_neg ht] at h

/-! State invariant of the transport layer and its preservation. -/

/-- Invariant of the registry relative to the fresh-identity supply:
every stored transport carries the session id it is registered under,
is connected to the single module-level server instance, and has an
object identity below the supply; and transports registered under
distinct ids are distinct objects. -/
def StInv (m : Registry) (n : Nat) : Prop :=
  (∀ p ∈ m, p.2.sessionId = some p.1 ∧ p.2.engineId = serverEngineId ∧ p.2.tid < n) ∧
  (∀ p ∈ m, ∀ q ∈ m, p.1 ≠ q.1 → p.2.tid ≠ q.2.tid)

theorem StInv_mono {m : Registry} {n n' : Nat} (h : StInv m n) (hn : n ≤ n') :
    StInv m n' := by
  refine ⟨fun p hp => ?_, h.2⟩
  obtain ⟨h1, h2, h3⟩ := h.1 p hp
  exact ⟨h1, h2, lt_of_lt_of_le h3 hn⟩

theorem StInv_of_subset {m m' : Registry} {n : Nat} (h : StInv m n)
    (hs : ∀ p, p ∈ m' → p ∈ m) : StInv m' n :=
  ⟨fun p hp => h.1 p (hs p hp),
   fun p hp q hq => h.2 p (hs p hp) q (hs q hq)⟩

theorem StInv_insert {m : Registry} {n : Nat} (h : StInv m n) (u : String) :
    StInv (objSet m u { tid := n, sessionId := some u, engineId := serverEngineId }) (n + 1) := by
  constructor
  · intro p hp
    rcases objSet_mem hp with rfl | hp
    · exact ⟨rfl, rfl, Nat.lt_succ_self n⟩
    · obtain ⟨h1, h2, h3⟩ := h.1 p hp
      exact ⟨h1, h2, Nat.lt_succ_of_lt h3⟩
  · intro p hp q hq hne
    rcases objSet_mem hp with rfl | hp <;> rcases objSet_mem hq with rfl | hq
    · exact absurd rfl hne
    · have := (h.1 q hq).2.2
      exact fun heq => absurd heq.symm (Nat.ne_of_lt this)
    · have := (h.1 p hp).2.2
      exact Nat.ne_of_lt this
    · exact h.2 p hp q hq hne

/-- The POST handler preserves the state invariant. -/
theorem StInv_postHandler {st : ServerState} (h : StInv st.transports st.nextTid)
    (r : InboundRequest) (u : String) (okk : Bool) :
    StInv (postHandler st r u okk).2.transports (postHandler st r u okk).2.nextTid := by
  unfold postHandler
  split
  · exact h
  · split
    · split
      · exact StInv_insert h u
      · exact StInv_mono h (Nat.le_succ _)
    · exact h

/-- The GET and DELETE handler preserves the state invariant. -/
theorem StInv_sessionHandler {st : ServerState} (h : StInv st.transports st.nextTid)
    (closes : Bool) (r : InboundRequest) :
    StInv (sessionHandler closes st r).2.transports (sessionHandler closes st r).2.nextTid := by
  unfold sessionHandler
  split
  · exact h
  · split
    · exact h
    · split
      · exact StInv_of_subset h (fun p hp => oncloseEffect_subset hp)
      · exact h

/-- Every step of the transport layer preserves the state invariant. -/
theorem StInv_step {cfg : Config} {st : ServerState} (h : StInv st.transports st.nextTid)
    (e : Event) :
    StInv (step cfg st e).2.transports (step cfg st e).2.nextTid := by
  cases e with
  | http r u okk =>
    have hstep : step cfg st (Event.http r u okk) = app cfg st r u okk := rfl
    rw [hstep]
    unfold app
    split
    · exact h
    · split
      · cases r.method with
        | post =>
          simp only [withAuth]
          split
          · exact h
          · exact StInv_postHandler h r u okk
        | get =>
          simp only [withAuth]
          split
          · exact h
          · exact StInv_sessionHandler h false r
        | delete =>
          simp only [withAuth]
          split
          · exact h
          · exact StInv_sessionHandler h true r
      · exact h
  | disconnect id =>
    have hstep : step cfg st (Event.disconnect id) =
        match objGet st.transports id with
        | some t => (Response.handled, { st with transports := oncloseEffect st.transports t })
        | none => (Response.handled, st) := rfl
    rw [hstep]
    cases hg : objGet st.transports id with
    | some t =>
      simp only
      exact StInv_of_subset h (fun p hp => oncloseEffect_subset hp)
    | none =>
      simp only
      exact h

/-- The state invariant holds along every run from the start state. -/
theorem StInv_run (cfg : Config) (es : List Event) :
    StInv (run cfg initState es).transports (run cfg initState es).nextTid := by
  have start : StInv initState.transports initState.nextTid := by
    constructor
    · intro p hp; cases hp
    · intro p hp; cases hp
  clear start
  suffices h : ∀ (st : ServerState), StInv st.transports st.nextTid →
      StInv (run cfg st es).transports (run cfg st es).nextTid by
    exact h initState (by constructor <;> (intro p hp; cases hp))
  induction es with
  | nil => intro st hst; exact hst
  | cons e es ih =>
    intro st hst
    exact ih (step cfg st e).2 (StInv_step hst e)

/-! Absence of a key is preserved by every event whose generated uuid
differs from it: nothing but the onsessioninitialized insertion ever
adds a key, and that insertion is keyed by the generated uuid. -/

/-- The event list never has the uuid generator produce the id s (the
source generator is randomUUID; ids are globally unique and never
reused). -/
def NeverGen (es : List Event) (s : String) : Prop :=
  ∀ r u okk, Event.http r u okk ∈ es → u ≠ s

theorem objGet_oncloseEffect_none {m : Registry} {t : Transport} {s : String}
    (h : objGet m s = none) : objGet (oncloseEffect m t) s = none := by
  unfold oncloseEffect
  split
  · rw [objGet_objDelete]
    split
    · rfl
    · exact h
  · exact h

theorem absent_step {cfg : Config} {st : ServerState} {s : String}
    (h : objGet st.transports s = none) (e : Event)
    (hu : ∀ r u okk, e = Event.http r u okk → u ≠ s) :
    objGet (step cfg st e).2.transports s = none := by
  cases e with
  | http r u okk =>
    have hus : u ≠ s := hu r u okk rfl
    have hstep : step cfg st (Event.http r u okk) = app cfg st r u okk := rfl
    rw [hstep]
    unfold app
    split
    · exact h
    · split
      · cases r.method with
        | post =>
          simp only [withAuth]
          split
          · exact h
          · unfold postHandler
            split
            · exact h
            · split
              · split
                · simp only
                  rw [objGet_objSet]
                  rw [if_neg (fun hh => hus hh.symm)]
                  exact h
                · exact h
              · exact h
        | get =>
          simp only [withAuth]
          split
          · exact h
          · unfold sessionHandler
            split
            · exact h
            · split
              · exact h
              · exact h
        | delete =>
          simp only [withAuth]
          split
          · exact h
          · unfold sessionHandler
            split
            · exact h
            · split
              · exact h
              · exact objGet_oncloseEffect_none h
      · exact h
  | disconnect id =>
    have hstep : step cfg st (Event.disconnect id) =
        match objGet st.transports id with
        | some t => (Response.handled, { st with transports := oncloseEffect st.transports t })
        | none => (Response.handled, st) := rfl
    rw [hstep]
    cases hg : objGet st.transports id with
    | some t =>
      simp only
      exact objGet_oncloseEffect_none h
    | none =>
      simp only
      exact h

theorem absent_run {cfg : Config} {s : String} :
    ∀ (es : List Event) (st : ServerState), objGet st.transports s = none →
      NeverGen es s → objGet (run cfg st es).transports s = none := by
  intro es
  induction es with
  | nil => intro st h _; exact h
  | cons e es ih =>
    intro st h hng
    have h1 : objGet (step cfg st e).2.transports s = none := by
      refine absent_step h e (fun r u okk he => hng r u okk ?_)
      rw [← he]
      exact List.mem_cons_self e es
    exact ih _ h1 (fun r u okk hm => hng r u okk (List.mem_cons_of_mem e hm))

/-! The 400 responses on unknown session ids. -/

theorem postHandler_unknown {st : ServerState} {r : InboundRequest} {s : String}
    (hsid : r.mcpSessionIdHeader = some s) (hne : s ≠ "")
    (habs : objGet st.transports s = none) (u : String) (okk : Bool) :
    postHandler st r u okk = (Response.badRequest400 postBadSessionMsg, st) := by
  unfold postHandler
  rw [hsid]
  simp [jsTruthy, hne, habs]

theorem sessionHandler_unknown {st : ServerState} {r : InboundRequest} {s : String}
    (hsid : r.mcpSessionIdHeader = some s) (hne : s ≠ "")
    (habs : objGet st.transports s = none) (closes : Bool) :
    sessionHandler closes st r = (Response.badRequest400 sessBadSessionMsg, st) := by
  unfold sessionHandler
  rw [hsid]
  simp [jsTruthy, hne, habs]

theorem app_unknown_sid_badRequest {cfg : Config} {st : ServerState} {r : InboundRequest}
    {s : String}
    (hpath : r.path = "/mcp") (hsid : r.mcpSessionIdHeader = some s) (hs : s ≠ "")
    (habs : objGet st.transports s = none)
    (hauth : authenticate cfg.authToken r = AuthDecision.pass)
    (u : String) (okk : Bool) :
    ((app cfg st r u okk).1).isBadRequest = true := by
  have hnh : ¬ (r.path = "/health" ∧ r.method = HttpMethod.get) := by
    rw [hpath]
    rintro ⟨h, -⟩
    exact absurd h (by decide)
  unfold app
  rw [if_neg hnh, if_pos hpath]
  cases hm : r.method with
  | post =>
    simp only [withAuth, hauth]
    rw [postHandler_unknown hsid hs habs u okk]
    rfl
  | get =>
    simp only [withAuth, hauth]
    rw [sessionHandler_unknown hsid hs habs false]
    rfl
  | delete =>
    simp only [withAuth, hauth]
    rw [sessionHandler_unknown hsid hs habs true]
    rfl

/-- The DELETE route on a registered session id whose stored transport
carries that id removes exactly that key from the registry. -/
theorem step_delete_eq {cfg : Config} {st : ServerState} {s : String} {rD : InboundRequest}
    {t : Transport}
    (hpath : rD.path = "/mcp") (hmeth : rD.method = HttpMethod.delete)
    (hsid : rD.mcpSessionIdHeader = some s) (hs : s ≠ "")
    (hauth : authenticate cfg.authToken rD = AuthDecision.pass)
    (hreg : objGet st.transports s = some t) (htsid : t.sessionId = some s)
    (uD : String) (okD : Bool) :
    step cfg st (Event.http rD uD okD)
      = (Response.handled, { st with transports := objDelete st.transports s }) := by
  have hstep : step cfg st (Event.http rD uD okD) = app cfg st rD uD okD := rfl
  rw [hstep]
  have hnh : ¬ (rD.path = "/health" ∧ rD.method = HttpMethod.get) := by
    rw [hpath]
    rintro ⟨h, -⟩
    exact absurd h (by decide)
  unfold app
  rw [if_neg hnh, if_pos hpath, hmeth]
  simp only [withAuth, hauth]
  unfold sessionHandler
  rw [hsid]
  have htr : jsTruthy (some s) = true := by simp [jsTruthy, hs]
  simp only [htr, Option.getD, hreg, oncloseEffect, htsid]
  simp [jsTruthy, hs]

/-! Claim-oriented definitions used for the C6 statement. -/

/-- Whether an event is an /mcp request bearing the session id s. -/
def eventBearsSid : Event → String → Bool
  | Event.http r _ _, s => (r.path == "/mcp") && (r.mcpSessionIdHeader == some s)
  | Event.disconnect _, _ => false

/-- Whether an event passes the authentication middleware (transport
disconnects are not HTTP requests and are unaffected by the gate). -/
def eventAuthPasses (cfg : Config) : Event → Bool
  | Event.http r _ _ => authenticate cfg.authToken r == AuthDecision.pass
  | Event.disconnect _ => true

/-! Emptying sweep of the SIGINT handler. -/

theorem objDelete_key_ne {m : Registry} {id : String} {p : String × Transport}
    (h : p ∈ objDelete m id) : p.1 ≠ id := by
  induction m with
  | nil => simp [objDelete] at h
  | cons q m ih =>
    by_cases hq : q.1 = id
    · simp only [objDelete, if_pos hq] at h
      exact ih h
    · simp only [objDelete, if_neg hq, List.mem_cons] at h
      rcases h with rfl | h
      · exact hq
      · exact ih h

theorem foldl_onclose_nil (ts : List Transport) :
    ∀ acc : Registry,
      (∀ p ∈ acc, ∃ t ∈ ts, t.sessionId = some p.1 ∧ p.1 ≠ "") →
      ts.foldl oncloseEffect acc = [] := by
  induction ts with
  | nil =>
    intro acc h
    cases acc with
    | nil => rfl
    | cons p m =>
      obtain ⟨t, ht, -⟩ := h p (List.mem_cons_self p m)
      exact absurd ht (List.not_mem_nil t)
  | cons t ts ih =>
    intro acc h
    simp only [List.foldl_cons]
    apply ih
    intro p hp
    have hpacc : p ∈ acc := oncloseEffect_subset hp
    obtain ⟨t2, ht2, hsid, hne⟩ := h p hpacc
    rcases List.mem_cons.mp ht2 with rfl | hmem
    · exfalso
      have htruthy : jsTruthy t2.sessionId = true := by
        rw [hsid]; simp [jsTruthy, hne]
      unfold oncloseEffect at hp
      rw [if_pos htruthy, hsid] at hp
      simp only [Option.getD] at hp
      exact absurd rfl (objDelete_key_ne hp)
    · exact ⟨t2, hmem, hsid, hne⟩

/-- A registry whose entries all carry their own (nonempty) key as
their sessionId: this is the shape the invariant guarantees for every
reachable registry with the server-generated nonempty uuid keys. -/
def GoodReg (m : Registry) : Prop :=
  ∀ p ∈ m, p.2.sessionId = some p.1 ∧ p.1 ≠ ""

theorem closeAll_nil {m : Registry} (h : GoodReg m) : closeAll m = [] := by
  unfold closeAll
  apply foldl_onclose_nil
  intro p hp
  exact ⟨p.2, List.mem_map_of_mem Prod.snd hp, (h p hp).1, (h p hp).2⟩

/-! Evaluation lemmas for the authentication middleware. -/

/-- A request built from the two credential carriers read by the
authenticate middleware; the remaining fields are not consulted by it. -/
def authReq (a q : Option String) : InboundRequest :=
  { method := HttpMethod.post, path := "/mcp", authorizationHeader := a,
    tokenQueryParam := q, mcpSessionIdHeader := none, bodyIsInit := false }

theorem authenticate_pass_iff {secret : String} (hsec : secret ≠ "") (r : InboundRequest) :
    authenticate (some secret) r = AuthDecision.pass ↔ providedToken r = some secret := by
  unfold authenticate
  have htr : jsTruthy (some secret) = true := by simp [jsTruthy, hsec]
  rw [htr]
  by_cases hp : providedToken r = some secret
  · simp [hp]
  · simp [hp]

theorem providedToken_no_bearer {hdr : String} {q : Option String}
    (hB : strStartsWith hdr "Bearer " = false) :
    providedToken (authReq (some hdr) q) = if jsTruthy q then q else none := by
  simp [providedToken, authReq, hB]

theorem providedToken_bearer {hdr : String} {q : Option String}
    (hB : strStartsWith hdr "Bearer " = true) :
    providedToken (authReq (some hdr) q) = some (strDrop hdr 7) := by
  have hne : hdr ≠ "" := by
    intro h
    rw [h] at hB
    exact absurd hB (by decide)
  simp [providedToken, authReq, hB, jsTruthy, hne]

/-! Concrete fixtures shared by witnesses and counterexamples. -/

/-- Configuration with no AUTH_TOKEN and no MCP_VERSION set. -/
def cfg0 : Config := { authToken := none, mcpVersion := none }

/-- A well-formed initialization POST: no session id header, body is an
initialize request. -/
def reqInitW : InboundRequest :=
  { method := HttpMethod.post, path := "/mcp", authorizationHeader := none,
    tokenQueryParam := none, mcpSessionIdHeader := none, bodyIsInit := true }

/-- A registered transport for the session id s1. -/
def tW6 : Transport := { tid := 0, sessionId := some "s1", engineId := serverEngineId }

/-- A state holding the single live session s1. -/
def stW6 : ServerState := { transports := [("s1", tW6)], nextTid := 1 }

/-- A DELETE request for the session id s1. -/
def reqDel6 : InboundRequest :=
  { method := HttpMethod.delete, path := "/mcp", authorizationHeader := none,
    tokenQueryParam := none, mcpSessionIdHeader := some "s1", bodyIsInit := false }

/-- A POST request bearing the session id s1 with an initialize body. -/
def reqPost6 : InboundRequest :=
  { method := HttpMethod.post, path := "/mcp", authorizationHeader := none,
    tokenQueryParam := none, mcpSessionIdHeader := some "s1", bodyIsInit := true }

/-! Claim C1. -/

/-- A POST carrying the never-inserted session id constructor, with an
initialize body. -/
def reqProto1 : InboundRequest :=
  { method := HttpMethod.post, path := "/mcp", authorizationHeader := none,
    tokenQueryParam := none, mcpSessionIdHeader := some "constructor", bodyIsInit := true }

/-- A POST carrying the never-inserted ordinary session id missing,
with an initialize body. -/
def reqMissing1 : InboundRequest :=
  { method := HttpMethod.post, path := "/mcp", authorizationHeader := none,
    tokenQueryParam := none, mcpSessionIdHeader := some "missing", bodyIsInit := true }

/-- Counterexample to C1: on the empty registry, a POST carrying the
never-inserted session id constructor reads the truthy inherited
Object.prototype.constructor through the plain-object registry, takes
the reuse branch, and the failing dispatch is answered by the outer
catch with the 500 response — not the claimed 400 Bad Request (no
session is created either way). -/
theorem claim1_counterexample :
    postHandlerJS { transports := [], nextTid := 0 } reqProto1 "u1" true
      = (Response.serverError500, { transports := [], nextTid := 0 }) ∧
    ((postHandlerJS { transports := [], nextTid := 0 } reqProto1 "u1" true).1).isBadRequest
      = false := by
  decide

/-- Amended claim C1: a POST to the /mcp endpoint carrying a session id
that is not present in the registry never creates a session — the
state is returned unchanged whatever the request body is — and,
provided the id does not name a property a plain object inherits from
Object.prototype (every server-generated UUID id qualifies), it is
answered with the 400 Bad Request error; an unknown id that does name
such an inherited property instead takes the reuse branch and the
request fails with the 500 response of the outer catch, still creating
no session. -/
theorem claim1_amended_unknown_session_rejected
    (st : ServerState) (r : InboundRequest) (u : String) (okk : Bool) (s : String)
    (hsid : r.mcpSessionIdHeader = some s) (hne : s ≠ "")
    (habs : objGet st.transports s = none) :
    (postHandlerJS st r u okk).2 = st ∧
    (protoTruthy s = false →
      postHandlerJS st r u okk = (Response.badRequest400 postBadSessionMsg, st)) ∧
    (protoTruthy s = true →
      postHandlerJS st r u okk = (Response.serverError500, st)) := by
  have hres : postHandlerJS st r u okk =
      if protoTruthy s = true then (Response.serverError500, st)
      else (Response.badRequest400 postBadSessionMsg, st) := by
    unfold postHandlerJS
    rw [hsid]
    simp [jsTruthy, hne, habs]
  rw [hres]
  cases hp : protoTruthy s
  · simp
  · simp

/-- Witness for the amended C1: the empty-registry server answers a
POST carrying the ordinary unknown id missing with 400 and an unchanged
state, even though the body is an initialize request. -/
theorem claim1_amended_witness :
    (postHandlerJS { transports := [], nextTid := 0 } reqMissing1 "u1" true).2
      = { transports := [], nextTid := 0 } ∧
    postHandlerJS { transports := [], nextTid := 0 } reqMissing1 "u1" true
      = (Response.badRequest400 postBadSessionMsg, { transports := [], nextTid := 0 }) :=
  ⟨(claim1_amended_unknown_session_rejected { transports := [], nextTid := 0 }
      reqMissing1 "u1" true "missing" rfl (by decide) rfl).1,
   (claim1_amended_unknown_session_rejected { transports := [], nextTid := 0 }
      reqMissing1 "u1" true "missing" rfl (by decide) rfl).2.1 (by decide)⟩

/-! Claim C2. -/

/-- Claim C2: when AUTH_TOKEN is not configured (unset or the JS-falsy
empty string) the authenticate middleware passes every request onward
to the route handler unchanged; when it is configured, a request whose
extracted credential is absent or differs from the secret is answered
with the 401 response with the state untouched and the route handler
(the session-dispatch logic, quantified over all handlers) never runs,
and a request whose credential equals the secret is passed onward. -/
theorem claim2_auth_gate
    (tok : Option String) (handler : ServerState → InboundRequest → Response × ServerState)
    (st : ServerState) (r : InboundRequest) :
    (jsTruthy tok = false → withAuth tok handler st r = handler st r) ∧
    (jsTruthy tok = true →
      (providedToken r ≠ tok → withAuth tok handler st r = (Response.unauthorized401, st)) ∧
      (providedToken r = tok → withAuth tok handler st r = handler st r)) := by
  constructor
  · intro hfalse
    unfold withAuth authenticate
    simp [hfalse]
  · intro htrue
    constructor
    · intro hne
      unfold withAuth authenticate
      simp [htrue, hne]
    · intro heq
      unfold withAuth authenticate
      simp [htrue, heq]

/-- A route handler used to witness that the gate passes requests on. -/
def handlerW : ServerState → InboundRequest → Response × ServerState :=
  fun s _ => (Response.handled, s)

/-- An empty server state fixture. -/
def stW : ServerState := { transports := [], nextTid := 0 }

/-- A request presenting no credential. -/
def reqNoCred : InboundRequest :=
  { method := HttpMethod.get, path := "/mcp", authorizationHeader := none,
    tokenQueryParam := none, mcpSessionIdHeader := some "sid1", bodyIsInit := false }

/-- A request presenting the matching bearer credential. -/
def reqGoodCred : InboundRequest :=
  { method := HttpMethod.get, path := "/mcp", authorizationHeader := some "Bearer sec",
    tokenQueryParam := none, mcpSessionIdHeader := some "sid1", bodyIsInit := false }

/-- Witness for C2: with the secret configured, the credential-less
request is rejected 401 with untouched state, the matching request is
passed to the handler; with no secret, the credential-less request is
passed through. -/
theorem claim2_witness :
    withAuth (some "sec") handlerW stW reqNoCred = (Response.unauthorized401, stW) ∧
    withAuth (some "sec") handlerW stW reqGoodCred = handlerW stW reqGoodCred ∧
    withAuth none handlerW stW reqNoCred = handlerW stW reqNoCred :=
  ⟨((claim2_auth_gate (some "sec") handlerW stW reqNoCred).2 (by decide)).1 (by decide),
   ((claim2_auth_gate (some "sec") handlerW stW reqGoodCred).2 (by decide)).2 (by decide),
   (claim2_auth_gate none handlerW stW reqNoCred).1 (by decide)⟩

/-! Claim C3. -/

/-- The property asserted by claim C3, as a predicate on a state: the
engine instances bound to distinct live sessions are distinct. -/
def EnginesDistinct (st : ServerState) : Prop :=
  ∀ id1 id2 t1 t2, objGet st.transports id1 = some t1 →
    objGet st.transports id2 = some t2 → id1 ≠ id2 → t1.engineId ≠ t2.engineId

/-- Counterexample to C3: after two independent initialization
requests, the two live sessions u1 and u2 are bound to the same engine
instance, because the POST handler connects every freshly constructed
transport to the single module-level Server object. -/
theorem claim3_counterexample :
    ¬ EnginesDistinct
        (run cfg0 initState
          [Event.http reqInitW "u1" true, Event.http reqInitW "u2" true]) := by
  intro h
  exact h "u1" "u2"
    { tid := 0, sessionId := some "u1", engineId := serverEngineId }
    { tid := 1, sessionId := some "u2", engineId := serverEngineId }
    (by decide) (by decide) (by decide) rfl

/-- Amended claim C3: every session is bound to a freshly constructed
transport object (distinct live sessions hold distinct transport
instances), but all sessions share the one module-level protocol-engine
(Server) instance, so their bound engines are equal, not distinct. -/
theorem claim3_amended_shared_engine (cfg : Config) (es : List Event)
    (id1 id2 : String) (t1 t2 : Transport)
    (h1 : objGet (run cfg initState es).transports id1 = some t1)
    (h2 : objGet (run cfg initState es).transports id2 = some t2)
    (hne : id1 ≠ id2) :
    t1.tid ≠ t2.tid ∧ t1.engineId = serverEngineId ∧ t2.engineId = serverEngineId := by
  have hInv := StInv_run cfg es
  have hm1 := objGet_mem h1
  have hm2 := objGet_mem h2
  exact ⟨hInv.2 (id1, t1) hm1 (id2, t2) hm2 hne,
    (hInv.1 (id1, t1) hm1).2.1, (hInv.1 (id2, t2) hm2).2.1⟩

/-- Witness for the amended C3 at the concrete two-session run. -/
theorem claim3_amended_witness :
    Transport.tid { tid := 0, sessionId := some "u1", engineId := serverEngineId }
      ≠ Transport.tid { tid := 1, sessionId := some "u2", engineId := serverEngineId } ∧
    Transport.engineId { tid := 0, sessionId := some "u1", engineId := serverEngineId }
      = serverEngineId ∧
    Transport.engineId { tid := 1, sessionId := some "u2", engineId := serverEngineId }
      = serverEngineId :=
  claim3_amended_shared_engine cfg0
    [Event.http reqInitW "u1" true, Event.http reqInitW "u2" true]
    "u1" "u2"
    { tid := 0, sessionId := some "u1", engineId := serverEngineId }
    { tid := 1, sessionId := some "u2", engineId := serverEngineId }
    (by decide) (by decide) (by decide)

/-! Claim C4. -/

/-- A first transport stored under the id s. -/
def tFirst : Transport := { tid := 0, sessionId := some "s", engineId := serverEngineId }

/-- A second, distinct transport stored under the same id s. -/
def tSecond : Transport := { tid := 1, sessionId := some "s", engineId := serverEngineId }

/-- Counterexample to C4: the insertion performed by the
onsessioninitialized callback is a plain JS property assignment; it
does not fail on an already-present id, it replaces the stored entry. -/
theorem claim4_counterexample :
    objGet (objSet [("s", tFirst)] "s" tSecond) "s" ≠ some tFirst ∧
    objGet (objSet [("s", tFirst)] "s" tSecond) "s" = some tSecond := by
  decide

/-- Amended claim C4: inserting a session under an id that already has
an entry replaces the existing entry; for every id the registry holds
the most recently inserted session under it. -/
theorem claim4_amended_insert_overwrites (m : Registry) (id : String) (t : Transport) :
    objGet (objSet m id t) id = some t := by
  rw [objGet_objSet]
  simp

/-! Claim C5. -/

/-- A live registered transport for the shutdown fixtures. -/
def tShut : Transport := { tid := 0, sessionId := some "a", engineId := serverEngineId }

/-- A server state at the moment SIGINT arrives: one live session,
listener still accepting. -/
def shutW : ShutdownState := { transports := [("a", tShut)], accepting := true, exited := false }

/-- Counterexample to C5: the SIGINT handler performs the
session-closing sweep (sigintStep1, which here empties the registry)
while the listener is still accepting, and only afterwards stops
accepting (sigintStep2, the httpServer.close call) — the reverse of the
claimed order. -/
theorem claim5_counterexample :
    shutW.accepting = true ∧
    (sigintStep1 shutW).transports = [] ∧
    (sigintStep1 shutW).accepting = true ∧
    (sigintStep2 (sigintStep1 shutW)).accepting = false := by
  decide

/-- Amended claim C5: on SIGINT the coordinator first closes every
registered session (the sweep runs while the listener is still
accepting) and only then stops accepting and exits; after the handler
completes, the registry is empty, the listener no longer accepts, and
the process exits. -/
theorem claim5_amended_shutdown (s : ShutdownState) (h : GoodReg s.transports) :
    sigintHandler s = { transports := [], accepting := false, exited := true } := by
  unfold sigintHandler sigintStep1 sigintStep2 sigintStep3
  rw [closeAll_nil h]

/-- Witness for the amended C5 at a concrete one-session state. -/
theorem claim5_amended_witness :
    sigintHandler shutW = { transports := [], accepting := false, exited := true } :=
  claim5_amended_shutdown shutW (by unfold GoodReg; decide)

/-! Claim C6. -/

/-- Claim C6: a DELETE of a live session id removes that id from the
registry, and along any subsequent event sequence in which the uuid
generator never reissues that id (ids are never reused), the id stays
absent and every gate-passing /mcp request bearing it is answered with
a 400 Bad Request — the id is never revived. -/
theorem claim6_deleted_session_stays_dead
    (cfg : Config) (st : ServerState) (s : String) (rD : InboundRequest) (t : Transport)
    (es : List Event) (e : Event)
    (hW : ∀ p ∈ st.transports, p.2.sessionId = some p.1)
    (hs : s ≠ "")
    (hpath : rD.path = "/mcp") (hmeth : rD.method = HttpMethod.delete)
    (hsid : rD.mcpSessionIdHeader = some s)
    (hauth : authenticate cfg.authToken rD = AuthDecision.pass)
    (hreg : objGet st.transports s = some t)
    (hng : NeverGen es s)
    (hbears : eventBearsSid e s = true)
    (hpass : eventAuthPasses cfg e = true)
    (uD : String) (okD : Bool) :
    objGet (step cfg st (Event.http rD uD okD)).2.transports s = none ∧
    objGet (run cfg (step cfg st (Event.http rD uD okD)).2 es).transports s = none ∧
    ((step cfg (run cfg (step cfg st (Event.http rD uD okD)).2 es) e).1).isBadRequest
      = true := by
  have htsid : t.sessionId = some s := hW (s, t) (objGet_mem hreg)
  have hdel := step_delete_eq hpath hmeth hsid hs hauth hreg htsid uD okD
  have h1 : objGet (step cfg st (Event.http rD uD okD)).2.transports s = none := by
    rw [hdel]
    simp only
    rw [objGet_objDelete]
    simp
  have h2 : objGet (run cfg (step cfg st (Event.http rD uD okD)).2 es).transports s
      = none := absent_run es _ h1 hng
  refine ⟨h1, h2, ?_⟩
  cases e with
  | disconnect id => simp [eventBearsSid] at hbears
  | http r u okk =>
    simp only [eventBearsSid, Bool.and_eq_true, beq_iff_eq] at hbears
    simp only [eventAuthPasses, beq_iff_eq] at hpass
    have hstep : step cfg (run cfg (step cfg st (Event.http rD uD okD)).2 es)
        (Event.http r u okk)
        = app cfg (run cfg (step cfg st (Event.http rD uD okD)).2 es) r u okk := rfl
    rw [hstep]
    exact app_unknown_sid_badRequest hbears.1 hbears.2 hs h2 hpass u okk

/-- Witness for C6: delete the live session s1 and then POST with the
same id; the id is gone, stays gone after an empty continuation, and
the POST is answered 400. -/
theorem claim6_witness :
    objGet (step cfg0 stW6 (Event.http reqDel6 "x" true)).2.transports "s1" = none ∧
    objGet (run cfg0 (step cfg0 stW6 (Event.http reqDel6 "x" true)).2 []).transports "s1"
      = none ∧
    ((step cfg0 (run cfg0 (step cfg0 stW6 (Event.http reqDel6 "x" true)).2 [])
        (Event.http reqPost6 "u9" true)).1).isBadRequest = true :=
  claim6_deleted_session_stays_dead cfg0 stW6 "s1" reqDel6 tW6 []
    (Event.http reqPost6 "u9" true)
    (by decide) (by decide) (by decide) (by decide) (by decide) (by decide) (by decide)
    (fun r u okk h => absurd h (List.not_mem_nil _))
    (by decide) (by decide) "x" true

/-! Claim C7. -/

/-- Claim C7: whenever the tool dispatch throws (the switch of the
CallToolRequestSchema handler produces an exception — unknown tool
name, invalid file path, jq failure, schema-generation failure), the
handler returns a normal result object whose content carries the error
message and whose isError flag is set, instead of propagating the
exception; in particular any unrecognised tool name yields the Unknown
tool error result; and the engine dispatch for an existing session (the
transport-reuse branch of the POST handler) leaves the registry and the
session untouched whatever the tool outcome is. -/
theorem claim7_engine_failure_is_payload
    (env : ToolEnv) (defFP : Option String) (name : String) (args : ToolArgs) (msg : String)
    (st : ServerState) (r : InboundRequest) (u : String) (okk : Bool) (s : String) :
    (callToolInner env defFP name args = Except.error msg →
      callToolHandler env defFP name args
        = { content := [textItem ("Error: " ++ msg)], isError := true }) ∧
    (name ≠ "query_json" → name ≠ "generate_json_schema" → name ≠ "validate_json_schema" →
      callToolHandler env defFP name args
        = { content := [textItem ("Error: Unknown tool: " ++ name)], isError := true }) ∧
    (r.mcpSessionIdHeader = some s → s ≠ "" → (objGet st.transports s).isSome = true →
      postHandler st r u okk = (Response.handled, st)) := by
  refine ⟨?_, ?_, ?_⟩
  · intro h
    unfold callToolHandler
    rw [h]
  · intro h1 h2 h3
    unfold callToolHandler callToolInner
    rw [if_neg h1, if_neg h2, if_neg h3]
    rfl
  · intro hsid hne hsome
    unfold postHandler
    rw [hsid]
    simp [jsTruthy, hne, hsome]

/-- A collaborator environment in which every external operation
fails. -/
def envW : ToolEnv :=
  { fsValidate := fun _ => Except.error "File does not exist: /nope"
    loadJson := fun _ => Except.error "File not found: /nope"
    jqRun := fun _ _ => Except.error "bad query"
    gensonCreateSchema := fun _ => Except.ok "schema"
    ajvCompile := fun _ => Except.error "bad schema" }

/-- Tool arguments with no file path. -/
def argsW : ToolArgs :=
  { filePath := none, query := some ".a", schemaObj := none, schemaFilePath := none }

/-- A POST request reusing the live session s1. -/
def reqReuse7 : InboundRequest :=
  { method := HttpMethod.post, path := "/mcp", authorizationHeader := none,
    tokenQueryParam := none, mcpSessionIdHeader := some "s1", bodyIsInit := false }

/-- Witness for C7: a query_json call with no file path configured
throws and is returned as an isError payload; an unknown tool name is
returned as an isError payload; the transport-reuse dispatch leaves the
one-session state untouched. -/
theorem claim7_witness :
    callToolHandler envW none "query_json" argsW
      = { content := [textItem ("Error: " ++ "File path is required")], isError := true } ∧
    callToolHandler envW none "nope" argsW
      = { content := [textItem ("Error: Unknown tool: " ++ "nope")], isError := true } ∧
    postHandler stW6 reqReuse7 "u" true = (Response.handled, stW6) :=
  ⟨(claim7_engine_failure_is_payload envW none "query_json" argsW "File path is required"
      stW6 reqReuse7 "u" true "s1").1 rfl,
   (claim7_engine_failure_is_payload envW none "nope" argsW "x"
      stW6 reqReuse7 "u" true "s1").2.1 (by decide) (by decide) (by decide),
   (claim7_engine_failure_is_payload envW none "nope" argsW "x"
      stW6 reqReuse7 "u" true "s1").2.2 rfl (by decide) (by decide)⟩

/-! Claim C8. -/

/-- Claim C8: a GET of /health is answered with the 200 healthy-status
body for every configuration (in particular with a configured secret
and no presented credential, since the route is registered without the
authenticate middleware) and every state, and the state is returned
unchanged — no session is created, looked up, or removed. -/
theorem claim8_health_bypasses_gate_and_registry
    (cfg : Config) (st : ServerState) (a q sid : Option String) (bI : Bool)
    (u : String) (okk : Bool) :
    app cfg st
        { method := HttpMethod.get, path := "/health", authorizationHeader := a,
          tokenQueryParam := q, mcpSessionIdHeader := sid, bodyIsInit := bI } u okk
      = (Response.healthy (healthBody cfg.mcpVersion), st) := by
  unfold app
  simp

/-! Claim C9. -/

/-- Claim C9: the registry is mutated only by the onsessioninitialized
insertion (keyed by the id passed to the callback, which the SDK has
just assigned as the transport's own sessionId) and by the onclose
deletion (keyed by the closing transport's sessionId), which the step
relation of the model reflects; consequently, in every state reachable
from startup, a transport stored under an id carries exactly that id as
its sessionId field. -/
theorem claim9_registry_wellkeyed (cfg : Config) (es : List Event) (id : String)
    (t : Transport)
    (h : objGet (run cfg initState es).transports id = some t) :
    t.sessionId = some id :=
  ((StInv_run cfg es).1 (id, t) (objGet_mem h)).1

/-- Witness for C9 at a run creating one session. -/
theorem claim9_witness :
    Transport.sessionId { tid := 0, sessionId := some "u1", engineId := serverEngineId }
      = some "u1" :=
  claim9_registry_wellkeyed cfg0 [Event.http reqInitW "u1" true] "u1"
    { tid := 0, sessionId := some "u1", engineId := serverEngineId } (by decide)

/-! Claim C10. -/

/-- Claim C10: with a configured (nonempty) secret, a request whose
Authorization header does not start with the Bearer prefix is decided
solely by the token query parameter — it passes the gate exactly when
that parameter equals the secret, and the header value is immaterial —
while a request whose header does start with the Bearer prefix is
decided solely by the header remainder — it passes exactly when the
characters after the prefix equal the secret, and the query parameter
is immaterial. -/
theorem claim10_auth_header_precedence (secret hdr : String) (q : Option String)
    (hsec : secret ≠ "") :
    (strStartsWith hdr "Bearer " = false →
      ((authenticate (some secret) (authReq (some hdr) q) = AuthDecision.pass ↔
          q = some secret) ∧
        ∀ hdr2 : String, strStartsWith hdr2 "Bearer " = false →
          authenticate (some secret) (authReq (some hdr2) q)
            = authenticate (some secret) (authReq (some hdr) q))) ∧
    (strStartsWith hdr "Bearer " = true →
      ((authenticate (some secret) (authReq (some hdr) q) = AuthDecision.pass ↔
          strDrop hdr 7 = secret) ∧
        ∀ q2 : Option String,
          authenticate (some secret) (authReq (some hdr) q2)
            = authenticate (some secret) (authReq (some hdr) q))) := by
  constructor
  · intro hB
    constructor
    · rw [authenticate_pass_iff hsec, providedToken_no_bearer hB]
      cases q with
      | none => simp
      | some tk =>
        by_cases ht : tk = ""
        · subst ht
          simp [jsTruthy, Ne.symm hsec]
        · simp [jsTruthy, ht]
    · intro hdr2 hB2
      unfold authenticate
      rw [providedToken_no_bearer hB2, providedToken_no_bearer hB]
  · intro hB
    constructor
    · rw [authenticate_pass_iff hsec, providedToken_bearer hB]
      simp
    · intro q2
      unfold authenticate
      rw [providedToken_bearer hB, providedToken_bearer hB]

/-- Witness for C10: with secret sec, a non-Bearer header passes via
the matching query parameter and its value is immaterial; a Bearer
header with matching remainder passes and the query parameter is
immaterial. -/
theorem claim10_witness :
    authenticate (some "sec") (authReq (some "Token x") (some "sec"))
      = AuthDecision.pass ∧
    authenticate (some "sec") (authReq (some "Other y") (some "sec"))
      = authenticate (some "sec") (authReq (some "Token x") (some "sec")) ∧
    authenticate (some "sec") (authReq (some "Bearer sec") none) = AuthDecision.pass ∧
    authenticate (some "sec") (authReq (some "Bearer sec") (some "zz"))
      = authenticate (some "sec") (authReq (some "Bearer sec") none) := by
  refine ⟨?_, ?_, ?_, ?_⟩
  · exact (((claim10_auth_header_precedence "sec" "Token x" (some "sec")
      (by decide)).1 (by decide)).1).mpr rfl
  · exact ((claim10_auth_header_precedence "sec" "Token x" (some "sec")
      (by decide)).1 (by decide)).2 "Other y" (by decide)
  · exact (((claim10_auth_header_precedence "sec" "Bearer sec" none
      (by decide)).2 (by decide)).1).mpr (by decide)
  · exact ((claim10_auth_header_precedence "sec" "Bearer sec" none
      (by decide)).2 (by decide)).2 (some "zz")

end JsonMcpServer
